import Mathlib

/-!
Verification of the gdoc-shell repository: a daemon that polls a cloud
document for a shell command, executes it when whitelisted, and appends the
result as a row of a log table.  The definitions below are a shallow
embedding of `src/gdoc_shell.py` and `src/utils.py`; the theorems settle the
spec's claims about them.
-/

namespace GdocShell

/-- Sentinel returned by `_execute_command` when the first token is not in
the whitelist (constant `OUTPUT_INVALID_CMD` in `gdoc_shell.py`). -/
def OUTPUT_INVALID_CMD : String :=
  "Command is not in the list of valid commands. Please add it to the config if you want to use it."

/-- Sentinel returned by `_execute_command` when the executed command's
trimmed stdout is empty (constant `OUTPUT_NO_OUTPUT` in `gdoc_shell.py`). -/
def OUTPUT_NO_OUTPUT : String := "No output"

/-- Helper for Python's `str.split()` with no arguments: walk the character
list, accumulating the current word in `cur` (reversed); whitespace ends the
current word, and empty words are dropped. -/
def wordsAux : List Char → List Char → List String
  | cur, [] => if cur = [] then [] else [String.mk cur.reverse]
  | cur, c :: cs =>
    if c.isWhitespace then
      if cur = [] then wordsAux [] cs
      else String.mk cur.reverse :: wordsAux [] cs
    else wordsAux (c :: cur) cs

/-- Python's `cmd.split()` (no separator argument): split on runs of
whitespace, discarding empty tokens. -/
def pySplit (s : String) : List String := wordsAux [] s.data

/-- Python's `s.strip()` with no arguments: remove leading and trailing
whitespace characters. -/
def pyStrip (s : String) : String :=
  String.mk (((s.data.dropWhile Char.isWhitespace).reverse.dropWhile
    Char.isWhitespace).reverse)

/-- Outcome of one call to `_execute_command`: the returned value
(`none` embeds Python's `None`) paired with whether `subprocess.run` was
invoked. -/
structure ExecOutcome where
  ret : Option String
  spawned : Bool
deriving DecidableEq

/-- Shallow embedding of `_execute_command(cmd, valid_commands)`.
`stdout` is the environment's oracle for the stdout bytes (decoded to a
string) that `subprocess.run(cmd_list, capture_output=True)` would capture
for a given token list.  The source:
tokenize; empty token list returns `None`; first token not in
`valid_commands` returns `OUTPUT_INVALID_CMD` without running anything;
otherwise run the process, trim its stdout, and return it, or
`OUTPUT_NO_OUTPUT` when the trimmed stdout is the empty string
(Python's `output or OUTPUT_NO_OUTPUT`). -/
def executeCommand (cmd : String) (valid_commands : List String)
    (stdout : List String → String) : ExecOutcome :=
  match pySplit cmd with
  | [] => ⟨none, false⟩
  | t :: _ =>
    if t ∈ valid_commands then
      let output := pyStrip (stdout (pySplit cmd))
      ⟨some (if output = "" then OUTPUT_NO_OUTPUT else output), true⟩
    else
      ⟨some OUTPUT_INVALID_CMD, false⟩

/-! ### Document model and `_write_output` -/

/-- One table cell of the document JSON: the code reads only its
`startIndex`. -/
structure TableCell where
  startIndex : Nat
deriving DecidableEq

/-- One table row of the document JSON: the code reads its `tableCells`. -/
structure TableRow where
  tableCells : List TableCell
deriving DecidableEq

/-- A top-level structural element of `document.body.content`: a paragraph
or a table.  The code reads a table's `startIndex` and `tableRows`. -/
inductive StructuralElement where
  | paragraph (startIndex : Nat)
  | table (startIndex : Nat) (tableRows : List TableRow)
deriving DecidableEq

/-- The document body as fetched by `service.documents().get(...)`. -/
structure Document where
  content : List StructuralElement
deriving DecidableEq

/-- One request of a `batchUpdate` body: `insertText` at a character index,
or `insertTableRow` below a cell location (the code passes the string
`'true'` for `insertBelow`). -/
inductive Request where
  | insertText (index : Nat) (text : String)
  | insertTableRow (tableStartIndex : Nat) (rowIndex : Nat)
      (columnIndex : Nat) (insertBelow : String)
deriving DecidableEq

/-- `_build_insert_text(index, text)` from `gdoc_shell.py`. -/
def buildInsertText (index : Nat) (text : String) : Request :=
  Request.insertText index text

/-- One call made against the external document API: a document read or one
`batchUpdate` submission. -/
inductive ApiCall where
  | getDocument
  | batchUpdate (requests : List Request)
deriving DecidableEq

/-- Shallow embedding of `_write_output(cmd, output, service, fid)`.
Returns the sequence of API calls the function performs, or `none` when the
Python code would raise (document too short, penultimate block not a table,
table without rows, last row with fewer than three cells).  The source:
return immediately when `output is None`; otherwise fetch the document,
take `content[-2]` as the output table, take its last row's cells, and
submit one batch of three right-to-left `insertText` requests followed by
one `insertTableRow` below the last row.  `now` is the already formatted
datetime string. -/
def writeOutput (cmd : String) (output : Option String) (doc : Document)
    (now : String) : Option (List ApiCall) :=
  match output with
  | none => some []
  | some out =>
    if doc.content.length < 2 then none
    else
      match doc.content.get? (doc.content.length - 2) with
      | some (StructuralElement.table tableStart rows) =>
        match rows.getLast? with
        | some lastRow =>
          match lastRow.tableCells.get? 2, lastRow.tableCells.get? 1,
              lastRow.tableCells.get? 0 with
          | some c2, some c1, some c0 =>
            some [ApiCall.getDocument,
              ApiCall.batchUpdate [
                buildInsertText (c2.startIndex + 1) now,
                buildInsertText (c1.startIndex + 1) out,
                buildInsertText (c0.startIndex + 1) cmd,
                Request.insertTableRow tableStart (rows.length - 1) 0 "true"]]
          | _, _, _ => none
        | none => none
      | _ => none

/-! ### `utils.py`: `needs_setup`, `read_id`, and `_create_file`'s write -/

/-- `needs_setup(path, fid_path, token_path)` from `utils.py`, over an
abstract filesystem `pathExists`: true when the storage directory is
missing, else true when the file-id file or the token file is missing. -/
def needs_setup (pathExists : String → Bool) (path fid_path token_path : String) :
    Bool :=
  if !pathExists path then true
  else !pathExists fid_path || !pathExists token_path

/-- Python's `f.readline()` over the file's character content: everything up
to and including the first newline, or the whole content when it has no
newline. -/
def readlineChars : List Char → List Char
  | [] => []
  | c :: cs => if c = '\n' then [c] else c :: readlineChars cs

/-- `read_id(path)` from `utils.py`, over the file's content: a single
`readline` of the opened file, returned unmodified. -/
def read_id (content : String) : String := String.mk (readlineChars content.data)

/-- The file content `_create_file` writes to `FILE_ID_PATH`: exactly the
returned id, `f.write(fid)`, with no trailing newline. -/
def createFileContent (fid : String) : String := fid

/-! ### CLI surface (`utils.build_parser` and the `__main__` dispatch) -/

/-- The positional arguments `utils.build_parser` declares: a single
`mode`. -/
def parserPositionalArgs : List String := ["mode"]

/-- A top-level action of the `__main__` block. `fatalError` embeds
`raise ValueError(msg)`, which performs no side effect. -/
inductive MainAction where
  | startDaemonProcess
  | stopDaemon
  | fatalError (msg : String)
deriving DecidableEq

/-- The `__main__` dispatch of `gdoc_shell.py`: `start` starts the daemon,
`stop` signals it, `restart` does `stop()` then `start_daemon_process()`,
and any other mode raises `ValueError('Invalid mode.')` before anything
else runs. -/
def mainDispatch (mode : String) : List MainAction :=
  if mode = "start" then [MainAction.startDaemonProcess]
  else if mode = "stop" then [MainAction.stopDaemon]
  else if mode = "restart" then
    [MainAction.stopDaemon, MainAction.startDaemonProcess]
  else [MainAction.fatalError "Invalid mode."]

/-! ### Shared lemmas -/

/-- A character list made only of whitespace yields no words. -/
theorem wordsAux_nil_of_whitespace (l : List Char)
    (h : ∀ c ∈ l, c.isWhitespace) : wordsAux [] l = [] := by
  induction l with
  | nil => rfl
  | cons c cs ih =>
    have hc : c.isWhitespace = true := h c (List.mem_cons_self c cs)
    have hcs : ∀ d ∈ cs, d.isWhitespace :=
      fun d hd => h d (List.mem_cons_of_mem c hd)
    simp [wordsAux, hc, ih hcs]

/-- On a whitelisted first token, `executeCommand` spawns the process and
returns the stripped stdout, with the no-output sentinel substituted for the
empty string. -/
theorem executeCommand_eq_of_mem (cmd : String) (W : List String)
    (stdout : List String → String) (t : String) (rest : List String)
    (hsplit : pySplit cmd = t :: rest) (hmem : t ∈ W) :
    executeCommand cmd W stdout =
      ⟨some (if pyStrip (stdout (t :: rest)) = "" then OUTPUT_NO_OUTPUT
        else pyStrip (stdout (t :: rest))), true⟩ := by
  unfold executeCommand
  rw [hsplit]
  simp [hmem]

end GdocShell

namespace GdocShell

/-! ### Claim theorems -/

/-- C1: for every raw command whose whitespace-split token list is non-empty
and whose first token is not in the whitelist, `_execute_command` returns the
invalid-command sentinel `OUTPUT_INVALID_CMD` and never spawns a
subprocess. -/
theorem execute_rejects_non_whitelisted (cmd : String) (W : List String)
    (stdout : List String → String) (t : String) (rest : List String)
    (hsplit : pySplit cmd = t :: rest) (hnot : t ∉ W) :
    executeCommand cmd W stdout = ⟨some OUTPUT_INVALID_CMD, false⟩ := by
  unfold executeCommand
  rw [hsplit]
  simp [hnot]

/-- Witness for C1 at the test suite's input `"rm -rf some"` with whitelist
`{pwd, ls, touch, echo, more}`. -/
theorem execute_rejects_non_whitelisted_witness :
    pySplit "rm -rf some" = ["rm", "-rf", "some"] ∧
    "rm" ∉ ["pwd", "ls", "touch", "echo", "more"] ∧
    executeCommand "rm -rf some" ["pwd", "ls", "touch", "echo", "more"]
      (fun _ => "") = ⟨some OUTPUT_INVALID_CMD, false⟩ :=
  ⟨by decide, by decide,
    execute_rejects_non_whitelisted "rm -rf some" _ _ "rm" ["-rf", "some"]
      (by decide) (by decide)⟩

/-- C2: for every raw command that is empty or all whitespace, and any
whitelist, `_execute_command` returns `None` without spawning, and `None` is
distinct from both string sentinels. -/
theorem execute_empty_returns_none (cmd : String) (W : List String)
    (stdout : List String → String) (h : ∀ c ∈ cmd.data, c.isWhitespace) :
    executeCommand cmd W stdout = ⟨none, false⟩ ∧
    (executeCommand cmd W stdout).ret ≠ some OUTPUT_INVALID_CMD ∧
    (executeCommand cmd W stdout).ret ≠ some OUTPUT_NO_OUTPUT := by
  have hs : pySplit cmd = [] := wordsAux_nil_of_whitespace cmd.data h
  have hmain : executeCommand cmd W stdout = ⟨none, false⟩ := by
    unfold executeCommand
    rw [hs]
  exact ⟨hmain, by rw [hmain]; simp, by rw [hmain]; simp⟩

/-- Witness for C2 at the whitespace-only command `"  "`. -/
theorem execute_empty_returns_none_witness :
    (∀ c ∈ ("  " : String).data, c.isWhitespace) ∧
    executeCommand "  " ["ls"] (fun _ => "x") = ⟨none, false⟩ :=
  ⟨by decide,
    (execute_empty_returns_none "  " ["ls"] (fun _ => "x") (by decide)).1⟩

/-- C3: for every command whose first token is whitelisted,
`_execute_command` returns exactly the stripped captured stdout when that is
non-empty, returns `OUTPUT_NO_OUTPUT` when it is empty, and never returns
the empty string. -/
theorem execute_whitelisted_output (cmd : String) (W : List String)
    (stdout : List String → String) (t : String) (rest : List String)
    (hsplit : pySplit cmd = t :: rest) (hmem : t ∈ W) :
    (pyStrip (stdout (t :: rest)) ≠ "" →
      executeCommand cmd W stdout = ⟨some (pyStrip (stdout (t :: rest))), true⟩) ∧
    (pyStrip (stdout (t :: rest)) = "" →
      executeCommand cmd W stdout = ⟨some OUTPUT_NO_OUTPUT, true⟩) ∧
    (executeCommand cmd W stdout).ret ≠ some "" := by
  have heq := executeCommand_eq_of_mem cmd W stdout t rest hsplit hmem
  by_cases hout : pyStrip (stdout (t :: rest)) = ""
  · rw [heq]
    refine ⟨fun hne => absurd hout hne, fun _ => by simp [hout], ?_⟩
    simp only [hout, if_pos rfl]
    intro hcontra
    have : OUTPUT_NO_OUTPUT = "" := by
      simpa using hcontra
    exact absurd this (by decide)
  · rw [heq]
    refine ⟨fun _ => by simp [hout], fun habs => absurd habs hout, ?_⟩
    simp only [if_neg hout]
    intro hcontra
    exact hout (by simpa using hcontra)

/-- Witness for C3 at the test suite's input `"echo Testing"` (non-empty
stdout) together with an empty-stdout run of `"pwd"`. -/
theorem execute_whitelisted_output_witness :
    (pySplit "echo Testing" = ["echo", "Testing"] ∧ "echo" ∈ ["echo", "pwd"] ∧
      executeCommand "echo Testing" ["echo", "pwd"] (fun _ => "Testing\n") =
        ⟨some "Testing", true⟩) ∧
    (executeCommand "pwd" ["echo", "pwd"] (fun _ => "") =
      ⟨some OUTPUT_NO_OUTPUT, true⟩) :=
  ⟨⟨by decide, by decide,
    (execute_whitelisted_output "echo Testing" ["echo", "pwd"]
      (fun _ => "Testing\n") "echo" ["Testing"] (by decide) (by decide)).1
      (by decide)⟩,
    (execute_whitelisted_output "pwd" ["echo", "pwd"] (fun _ => "")
      "pwd" [] (by decide) (by decide)).2.1 (by decide)⟩

/-- C9: the gate's allow/reject decision depends only on the first token:
two commands with the same non-empty first token spawn a subprocess under
exactly the same whitelists, whatever their remaining tokens or the
environment's stdout. -/
theorem gate_decision_first_token_only (W : List String) (c1 c2 t : String)
    (s1 s2 : List String → String)
    (h1 : (pySplit c1).head? = some t) (h2 : (pySplit c2).head? = some t) :
    (executeCommand c1 W s1).spawned = (executeCommand c2 W s2).spawned := by
  unfold executeCommand
  cases hs1 : pySplit c1 with
  | nil => rw [hs1] at h1; simp at h1
  | cons a l1 =>
    cases hs2 : pySplit c2 with
    | nil => rw [hs2] at h2; simp at h2
    | cons b l2 =>
      rw [hs1] at h1
      rw [hs2] at h2
      simp only [List.head?_cons, Option.some.injEq] at h1 h2
      have hab : a = b := h1.trans h2.symm
      subst hab
      by_cases hm : a ∈ W <;> simp [hm]

/-- Witness for C9: `"rm"` and `"rm -rf some"` share the first token and the
gate decides both identically. -/
theorem gate_decision_first_token_only_witness :
    (pySplit "rm").head? = some "rm" ∧
    (pySplit "rm -rf some").head? = some "rm" ∧
    (executeCommand "rm" ["ls", "pwd"] (fun _ => "a")).spawned =
      (executeCommand "rm -rf some" ["ls", "pwd"] (fun _ => "b")).spawned :=
  ⟨by decide, by decide,
    gate_decision_first_token_only ["ls", "pwd"] "rm" "rm -rf some" "rm"
      (fun _ => "a") (fun _ => "b") (by decide) (by decide)⟩

/-- C4: `_write_output` with `output = None` performs zero API calls: no
document read and no batch update. -/
theorem write_output_none_is_noop (cmd : String) (doc : Document)
    (now : String) : writeOutput cmd none doc now = some [] := rfl

/-- C5: for every non-`None` output and a document whose penultimate block
is a table with a last row of at least three cells, `_write_output` submits
a single batch of exactly four requests in array order: datetime at the
column-2 offset, output at column-1, command at column-0, then one row
inserted below the last row; with ascending cell offsets the three text
insertions are at strictly descending offsets. -/
theorem write_output_single_batch (cmd out now : String) (doc : Document)
    (tableStart : Nat) (rows : List TableRow) (lastRow : TableRow)
    (c0 c1 c2 : TableCell)
    (hlen : 2 ≤ doc.content.length)
    (htable : doc.content.get? (doc.content.length - 2) =
      some (StructuralElement.table tableStart rows))
    (hlast : rows.getLast? = some lastRow)
    (hc2 : lastRow.tableCells.get? 2 = some c2)
    (hc1 : lastRow.tableCells.get? 1 = some c1)
    (hc0 : lastRow.tableCells.get? 0 = some c0) :
    writeOutput cmd (some out) doc now =
      some [ApiCall.getDocument,
        ApiCall.batchUpdate [
          buildInsertText (c2.startIndex + 1) now,
          buildInsertText (c1.startIndex + 1) out,
          buildInsertText (c0.startIndex + 1) cmd,
          Request.insertTableRow tableStart (rows.length - 1) 0 "true"]] ∧
    (c0.startIndex < c1.startIndex → c1.startIndex < c2.startIndex →
      c0.startIndex + 1 < c1.startIndex + 1 ∧
        c1.startIndex + 1 < c2.startIndex + 1) := by
  constructor
  · have hnl : ¬doc.content.length < 2 := Nat.not_lt.mpr hlen
    rw [List.get?_eq_getElem?] at htable hc2 hc1 hc0
    simp [writeOutput, hnl, htable, hlast, hc2, hc1, hc0]
  · intro ha hb
    exact ⟨Nat.succ_lt_succ ha, Nat.succ_lt_succ hb⟩

/-- Witness for C5: a three-block document whose penultimate block is a
two-row, three-column table. -/
theorem write_output_single_batch_witness :
    writeOutput "pwd" (some "/some/path")
      ⟨[StructuralElement.paragraph 0,
        StructuralElement.table 2
          [⟨[⟨3⟩, ⟨5⟩, ⟨7⟩]⟩, ⟨[⟨10⟩, ⟨12⟩, ⟨14⟩]⟩],
        StructuralElement.paragraph 20]⟩ "2020-01-01 00:00:00" =
      some [ApiCall.getDocument,
        ApiCall.batchUpdate [
          buildInsertText 15 "2020-01-01 00:00:00",
          buildInsertText 13 "/some/path",
          buildInsertText 11 "pwd",
          Request.insertTableRow 2 1 0 "true"]] :=
  (write_output_single_batch "pwd" "/some/path" "2020-01-01 00:00:00"
    ⟨[StructuralElement.paragraph 0,
      StructuralElement.table 2
        [⟨[⟨3⟩, ⟨5⟩, ⟨7⟩]⟩, ⟨[⟨10⟩, ⟨12⟩, ⟨14⟩]⟩],
      StructuralElement.paragraph 20]⟩
    2 [⟨[⟨3⟩, ⟨5⟩, ⟨7⟩]⟩, ⟨[⟨10⟩, ⟨12⟩, ⟨14⟩]⟩] ⟨[⟨10⟩, ⟨12⟩, ⟨14⟩]⟩
    ⟨10⟩ ⟨12⟩ ⟨14⟩ (by decide) (by decide) (by decide) (by decide)
    (by decide) (by decide)).1

/-- C6: `needs_setup` returns true iff at least one of the storage
directory, the file-id file, and the token file does not exist. -/
theorem needs_setup_iff_any_missing (pathExists : String → Bool)
    (path fid_path token_path : String) :
    needs_setup pathExists path fid_path token_path = true ↔
      (pathExists path = false ∨ pathExists fid_path = false ∨
        pathExists token_path = false) := by
  unfold needs_setup
  cases hp : pathExists path <;> cases hf : pathExists fid_path <;>
    cases ht : pathExists token_path <;> simp

/-- `readline` leaves a newline-free character list unchanged. -/
theorem readlineChars_of_no_newline (l : List Char) (h : '\n' ∉ l) :
    readlineChars l = l := by
  induction l with
  | nil => rfl
  | cons c cs ih =>
    have hc : c ≠ '\n' := fun he => h (he ▸ List.mem_cons_self c cs)
    simp [readlineChars, hc, ih (fun hm => h (List.mem_cons_of_mem c hm))]

/-- `readline` of a first line followed by a newline and anything else is
that line with its newline. -/
theorem readlineChars_append_newline (l r : List Char) (h : '\n' ∉ l) :
    readlineChars (l ++ '\n' :: r) = l ++ ['\n'] := by
  induction l with
  | nil => simp [readlineChars]
  | cons c cs ih =>
    have hc : c ≠ '\n' := fun he => h (he ▸ List.mem_cons_self c cs)
    simp [readlineChars, hc, ih (fun hm => h (List.mem_cons_of_mem c hm))]

/-- C7: writing a single-line identifier with no trailing newline, as
`_create_file` does, and reading it back with `read_id` returns exactly
that identifier. -/
theorem read_id_roundtrip (fid : String) (h : '\n' ∉ fid.data) :
    read_id (createFileContent fid) = fid := by
  unfold read_id createFileContent
  rw [readlineChars_of_no_newline fid.data h]

/-- Witness for C7 at a concrete identifier. -/
theorem read_id_roundtrip_witness :
    '\n' ∉ ("123Testing" : String).data ∧
    read_id (createFileContent "123Testing") = "123Testing" :=
  ⟨by decide, read_id_roundtrip "123Testing" (by decide)⟩

/-- C10: `read_id` returns only the first line of the file, verbatim,
keeping the trailing newline when the stored line ends with one. -/
theorem read_id_keeps_trailing_newline (s rest : String) (h : '\n' ∉ s.data) :
    read_id (s ++ "\n" ++ rest) = s ++ "\n" := by
  unfold read_id
  have hdata : (s ++ "\n" ++ rest).data = s.data ++ '\n' :: rest.data := by
    simp
  rw [hdata, readlineChars_append_newline s.data rest.data h]
  rfl

/-- Witness for C10: a PID-style file `"123\n"` followed by extra content
reads back as `"123\n"`, newline preserved. -/
theorem read_id_keeps_trailing_newline_witness :
    '\n' ∉ ("123" : String).data ∧
    read_id ("123" ++ "\n" ++ "ignored") = "123" ++ "\n" :=
  ⟨by decide, read_id_keeps_trailing_newline "123" "ignored" (by decide)⟩

/-- C8: the CLI declares exactly one positional `mode` argument, and every
mode outside `{start, stop, restart}` makes the program's action list a
single fatal error, so the error is reported before any side effect. -/
theorem cli_invalid_mode_fatal (mode : String)
    (h1 : mode ≠ "start") (h2 : mode ≠ "stop") (h3 : mode ≠ "restart") :
    parserPositionalArgs.length = 1 ∧
    mainDispatch mode = [MainAction.fatalError "Invalid mode."] := by
  refine ⟨rfl, ?_⟩
  unfold mainDispatch
  rw [if_neg h1, if_neg h2, if_neg h3]

/-- Witness for C8 at the unrecognized mode `"run"`. -/
theorem cli_invalid_mode_fatal_witness :
    parserPositionalArgs.length = 1 ∧
    mainDispatch "run" = [MainAction.fatalError "Invalid mode."] :=
  cli_invalid_mode_fatal "run" (by decide) (by decide) (by decide)

end GdocShell
